import Mathlib

/-!
Verification development for the buyer-side trade engine in
src/client/buy.go (package client of the bitwrk repository).

The Go code is shallowly embedded: each function of interest becomes a pure
Lean function over explicit state.  Fallible external operations (HTTP
requests, CAFS I/O, stream closes) are passed in as outcome parameters of
type Option String (none meaning success), and side effects that matter for
the claims (assist-registry calls, pipe closes, token returns) are recorded
as event traces.  Cryptographic primitives (the SHA-256 compression and the
AES-256 block function) are parameters of the model: the claims only depend
on how the code composes them, never on their internals.
-/

/-- A byte string, modelled as a list of naturals. -/
abbrev Bytes := List Nat

/-! ## Files and chunks (the CAFS collaborators used by buy.go) -/

/-- One content-addressed chunk of a work file: its hash and its data. -/
structure Chunk where
  hash : Nat
  data : Bytes
deriving DecidableEq

/-- A cafs.File handle as buy.go sees it: Key(), IsChunked(), the chunk
sequence (so NumChunks() is the length of that sequence). -/
structure WorkFile where
  key : Bytes
  chunkedFormat : Bool
  chunks : List Chunk
deriving DecidableEq

/-- NumChunks() of a work file. -/
def WorkFile.numChunks (wf : WorkFile) : Nat := wf.chunks.length

/-- A stored file handle: content key plus a distinct handle identifier, so
that Duplicate() can yield an independent handle to the same content. -/
structure FsFile where
  key : Nat
  handle : Nat
deriving DecidableEq

/-- Duplicate() of a cafs.File: same content key, an independent handle. -/
def FsFile.duplicate (f : FsFile) : FsFile := { key := f.key, handle := f.handle + 1 }

/-! ## C1: the EstablishBuyer message of doRemoteBuy -/

/-- Write into a streaming SHA-256 context, as hash.Write does in
doRemoteBuy: the context accumulates the written bytes. -/
def shaWrite (ctx : Bytes) (bs : Bytes) : Bytes := ctx ++ bs

/-- The EstablishBuyer message sent via SendTxMessageEstablishBuyer. -/
structure EstablishBuyerMsg where
  txId : Nat
  identity : Nat
  workHash : Bytes
  workSecretHash : Bytes
deriving DecidableEq

/-- The establish step of doRemoteBuy (src/client/buy.go lines 113-141):
the buyer secret has been drawn, workHash is the work file key, and
workSecretHash is obtained by writing workHash and then the secret into one
SHA-256 context and taking the digest.  The SHA-256 digest function itself
is the parameter digest. -/
def establishBuyerMessage (digest : Bytes → Bytes) (txId identity : Nat)
    (wf : WorkFile) (secret : Bytes) : EstablishBuyerMsg :=
  let workHash := wf.key
  let ctx0 : Bytes := []
  let ctx1 := shaWrite ctx0 workHash
  let ctx2 := shaWrite ctx1 secret
  { txId := txId, identity := identity, workHash := workHash,
    workSecretHash := digest ctx2 }

/-! ## C4: combination of seller and phase errors in doRemoteBuy -/

/-- What doRemoteBuy does after the Transmitting stage: either proceed to
decryption or fail with a message. -/
inductive TransmitOutcome where
  | proceed
  | fail (msg : String)
deriving DecidableEq

/-- Wrapping applied to an interactWithSeller failure in doRemoteBuy. -/
def wrapSellerErr (e : String) : String :=
  "Error transmitting work and receiving encrypted result: " ++ e

/-- Wrapping applied to a failed wait for phase UNVERIFIED in doRemoteBuy. -/
def wrapPhaseErr (e : String) : String :=
  "Error awaiting UNVERIFIED phase: " ++ e

/-- The combined error built by doRemoteBuy when both the seller
interaction and the phase wait failed. -/
def combineTransmitErrors (phaseErr sellerErr : String) : String :=
  phaseErr ++ ". Additionally: " ++ sellerErr

/-- Lines 148-166 of src/client/buy.go: given the raw failure (if any) of
interactWithSeller and of waitForTransactionPhase(Unverified, ...), decide
whether doRemoteBuy proceeds and with which error it fails. -/
def transmitStage (sellerRes phaseRes : Option String) : TransmitOutcome :=
  let sellerErr := sellerRes.map wrapSellerErr
  let phaseErr := phaseRes.map wrapPhaseErr
  match sellerErr, phaseErr with
  | none, none => .proceed
  | none, some pe => .fail pe
  | some se, none => .fail se
  | some se, some pe => .fail (combineTransmitErrors pe se)

/-! ## C3: capability probe and path selection in interactWithSeller -/

/-- The JSON document a seller answers to OPTIONS with. -/
structure SellerCaps where
  adler32Chunking : Bool
  gzipCompression : Bool
  syncInfo : Bool
deriving DecidableEq

/-- What happens on the wire during the OPTIONS probe: either the request
itself fails, or a response arrives with a status code and (when the body
parses as the capability JSON) a decoded capability document. -/
inductive OptionsWire where
  | requestFailed
  | response (statusCode : Nat) (body : Option SellerCaps)
deriving DecidableEq

/-- The four named results of testSellerForCapabilities: the three
capability booleans plus whether a non-nil error was returned. -/
structure CapsProbe where
  supportsChunked : Bool
  supportsCompressed : Bool
  supportsSyncInfo : Bool
  errReturned : Bool
deriving DecidableEq

/-- testSellerForCapabilities (src/client/buy.go lines 205-235): a request
error or a JSON decode error is returned with all capabilities false; a
non-200 status returns early with all capabilities false and a nil error;
otherwise the decoded capability booleans are returned. -/
def testSellerForCapabilities : OptionsWire → CapsProbe
  | .requestFailed => ⟨false, false, false, true⟩
  | .response code body =>
    if code ≠ 200 then ⟨false, false, false, false⟩
    else
      match body with
      | none => ⟨false, false, false, true⟩
      | some caps => ⟨caps.adler32Chunking, caps.gzipCompression, caps.syncInfo, false⟩

/-- The transfer mode interactWithSeller computes before transmitting,
together with whether the OPTIONS probe was attempted at all. -/
structure TransferMode where
  chunked : Bool
  compressed : Bool
  legacy : Bool
  probed : Bool
deriving DecidableEq

/-- Lines 268-280 of src/client/buy.go: chunked, compressed and legacy
start as false/false/true; only when the work file is chunked is the
seller probed, and a probe error is merely logged, leaving the defaults. -/
def capabilityStage (isChunked : Bool) (wire : OptionsWire) : TransferMode :=
  if isChunked then
    let r := testSellerForCapabilities wire
    if r.errReturned then ⟨false, false, true, true⟩
    else ⟨r.supportsChunked, r.supportsCompressed, !r.supportsSyncInfo, true⟩
  else ⟨false, false, true, false⟩

/-- The two transmission paths of interactWithSeller. -/
inductive TransferPath where
  | linear
  | chunkedPath
deriving DecidableEq

/-- Path selection in interactWithSeller: transmitWorkChunked when the
chunked flag is set, transmitWorkLinear otherwise. -/
def pathOf (m : TransferMode) : TransferPath :=
  if m.chunked then .chunkedPath else .linear

/-- Whether the OPTIONS probe failed on the wire: request error, status
other than 200, or unparseable JSON body. -/
def probeFailed : OptionsWire → Bool
  | .requestFailed => true
  | .response code body => code != 200 || body.isNone

/-! ## C2 and C5: transmitWorkChunked -/

/-- A remotesync.SyncInfo header: per-chunk hashes plus a permutation of
the 256 byte buckets. -/
structure SyncInfo where
  chunkHashes : List Nat
  perm : List Nat
deriving DecidableEq

/-- Modelled from the spec: remotesync's SetChunksFromFile (the cafs
library is an external collaborator).  It fills chunkHashes with one hash
per chunk of the file, so that the length equals NumChunks(). -/
def SyncInfo.setChunksFromFile (si : SyncInfo) (wf : WorkFile) : SyncInfo :=
  { si with chunkHashes := wf.chunks.map Chunk.hash }

/-- Modelled from the spec: remotesync's SetTrivialPermutation sets the
trivial (identity) permutation of the byte buckets, marking legacy mode. -/
def SyncInfo.setTrivialPermutation (si : SyncInfo) : SyncInfo :=
  { si with perm := List.range 256 }

/-- Modelled from the spec: remotesync's SetPermutation stores the given
permutation of the byte buckets. -/
def SyncInfo.setPermutation (si : SyncInfo) (p : List Nat) : SyncInfo :=
  { si with perm := p }

/-- Errors transmitWorkChunked can return.  Only the bound check produces
workTooLarge; downstream failures are wrapped into the other two kinds. -/
inductive BuyError where
  | workTooLarge (numChunks bound : Nat)
  | transmitChunkedFailed (msg : String)
  | sendChunkDataFailed (msg : String)
deriving DecidableEq

/-- Whether an error is the work-too-large error. -/
def BuyError.isWorkTooLarge : BuyError → Bool
  | .workTooLarge _ _ => true
  | _ => false

/-- Calls into the process-wide assistive ticket registry made by
transmitWorkChunked. -/
inductive AssistEvent where
  | initNode (sellerId : String) (handprint : Nat)
  | exitNode (sellerId : String)
deriving DecidableEq

/-- The observable outcome of transmitWorkChunked: the SyncInfo it built
(if it got that far), its error (if any), and the registry calls it made. -/
structure ChunkedOutcome where
  builtSyncInfo : Option SyncInfo
  result : Option BuyError
  events : List AssistEvent
deriving DecidableEq

/-- transmitWorkChunked (src/client/buy.go lines 366-397).  First the
bound check against MaxNumberOfChunksInWorkFile (the parameter bound);
then the SyncInfo is built: trivial permutation in legacy mode, the drawn
pseudo-random permutation (parameter randPerm, the result of
pseudorand.Perm 256) otherwise — and only in the non-legacy branch is the
assist registry node initialised under the handprint of the SyncInfo
(parameter hpFn models assist.HandprintFromSyncInfo) and torn down by the
deferred ExitNode.  reqOutcome and sendOutcome are the failures (if any)
of requestMissingChunks and sendMissingChunksAndReturnResult. -/
def transmitWorkChunked (bound : Nat) (wf : WorkFile) (legacy : Bool)
    (randPerm : List Nat) (sellerId : String) (hpFn : SyncInfo → Nat)
    (reqOutcome sendOutcome : Option String) : ChunkedOutcome :=
  let numChunks := wf.numChunks
  if numChunks > bound then
    { builtSyncInfo := none,
      result := some (.workTooLarge numChunks bound),
      events := [] }
  else
    let si0 : SyncInfo := { chunkHashes := [], perm := [] }
    let si1 := si0.setChunksFromFile wf
    let si2 := if legacy then si1.setTrivialPermutation else si1.setPermutation randPerm
    let initEvents : List AssistEvent :=
      if legacy then [] else [.initNode sellerId (hpFn si2)]
    let exitEvents : List AssistEvent :=
      if legacy then [] else [.exitNode sellerId]
    match reqOutcome with
    | some msg =>
      { builtSyncInfo := some si2,
        result := some (.transmitChunkedFailed ("Transmitting work (chunked) failed: " ++ msg)),
        events := initEvents ++ exitEvents }
    | none =>
      match sendOutcome with
      | some msg =>
        { builtSyncInfo := some si2,
          result := some (.sendChunkDataFailed ("Error sending work chunk data to seller: " ++ msg)),
          events := initEvents ++ exitEvents }
      | none =>
        { builtSyncInfo := some si2, result := none, events := initEvents ++ exitEvents }

/-- Whether a ChunkedOutcome failed with the work-too-large error. -/
def ChunkedOutcome.failedTooLarge (o : ChunkedOutcome) : Bool :=
  match o.result with
  | some e => e.isWorkTooLarge
  | none => false

/-! ## C6: the producer goroutine of sendMissingChunksAndReturnResult -/

/-- Actions of the goroutine that writes the chunk-data multipart body
into the request pipe. -/
inductive PushEvent where
  | createFormFile
  | writeChunkData
  | disposeChunks
  | closeMultipart
  | closeCompressor
  | closePipeWithError (msg : String)
  | closePipe
  | returnToken
  | setInterested (sellerId : String) (b : Bool)
deriving DecidableEq

/-- The body-producer goroutine of sendMissingChunksAndReturnResult
(src/client/buy.go lines 480-517), as the trace of its actions.  The
parameters are the failures (if any) of CreateFormFile, WriteChunkData,
the multipart close and the compressor close.  On any failure the pipe is
closed with the error and the goroutine returns; only after the whole
body has been written and the pipe closed cleanly does it return the
transmission token and clear the assist node interest flag. -/
def chunkPushProducer (createRes writeRes closeMwRes closeCompRes : Option String)
    (sellerId : String) : List PushEvent :=
  match createRes with
  | some e => [.closePipeWithError e]
  | none =>
    match writeRes with
    | some e => [.createFormFile, .writeChunkData, .disposeChunks, .closePipeWithError e]
    | none =>
      match closeMwRes with
      | some e => [.createFormFile, .writeChunkData, .disposeChunks, .closeMultipart,
                   .closePipeWithError e]
      | none =>
        match closeCompRes with
        | some e => [.createFormFile, .writeChunkData, .disposeChunks, .closeMultipart,
                     .closeCompressor, .closePipeWithError e]
        | none => [.createFormFile, .writeChunkData, .disposeChunks, .closeMultipart,
                   .closeCompressor, .closePipe, .returnToken, .setInterested sellerId false]

/-! ## C7: the AES-OFB decryption pipeline of decryptResult -/

/-- The OFB keystream blocks: iterate the block cipher E starting from the
initialization vector, as cipher.NewOFB does. -/
def ofbBlocks (E : Bytes → Bytes) (iv : Bytes) : Nat → List Bytes
  | 0 => []
  | n + 1 =>
    let b := E iv
    b :: ofbBlocks E b n

/-- The first blocks of the OFB keystream, concatenated. -/
def ofbKeystream (E : Bytes → Bytes) (iv : Bytes) (n : Nat) : Bytes :=
  (ofbBlocks E iv n).flatten

/-- The zero initialization vector used by decryptResult (aes.BlockSize
zero bytes). -/
def zeroIV : Bytes := List.replicate 16 0

/-- XOR of two byte strings, as cipher.StreamReader applies the keystream. -/
def xorBytes : Bytes → Bytes → Bytes := List.zipWith Nat.xor

/-- The byte transformation applied by decryptResult when copying the
encrypted result through cipher.StreamReader with the OFB stream of the
AES-256 block function E (derived from the one-time key) and zero IV. -/
def decryptResultBytes (E : Bytes → Bytes) (data : Bytes) : Bytes :=
  xorBytes data (ofbKeystream E zeroIV data.length)

/-- Modelled from the spec: the seller encrypts the result with AES-256 in
OFB mode under the same one-time key and the same zero IV, which XORs the
plaintext with the identical keystream. -/
def ofbEncrypt (E : Bytes → Bytes) (data : Bytes) : Bytes :=
  xorBytes data (ofbKeystream E zeroIV data.length)

/-- A concrete 16-byte block function, used to instantiate theorems. -/
def constBlock : Bytes → Bytes := fun _ => List.replicate 16 3

/-! ## C8, C9, C10: activity state -/

/-- The fields of the buy activity record (the Trade embedded in
BuyActivity) that the claims are about. -/
structure BuyState where
  workFile : Option FsFile
  resultFile : Option FsFile
  alive : Bool
  lastError : Option String
deriving DecidableEq

/-- The observable state of the paired sell activity. -/
structure SellState where
  alive : Bool
  resultFile : Option FsFile
deriving DecidableEq

/-- The predicate of the interruptibleWaitWhile in doLocalBuy: keep
waiting while the sell is alive and has no result file. -/
def localWaitPred (s : SellState) : Bool := s.alive && s.resultFile.isNone

/-- doLocalBuy (src/client/buy.go lines 79-104).  waitResult is the
outcome of the interruptibleWaitWhile: an error (interruption), or the
sell state at which the wait predicate went false.  If the sell produced a
result, an independent duplicate is taken, stored as the activity result
file and returned; otherwise the sell-produced-no-result error is
returned. -/
def doLocalBuy (act : BuyState) (sellKey : String)
    (waitResult : Except String SellState) : Except String FsFile × BuyState :=
  match waitResult with
  | .error e => (.error ("Error waiting for local sell to complete: " ++ e), act)
  | .ok s =>
    match s.resultFile with
    | none => (.error ("Sell didn\x27t produce a result: #" ++ sellKey), act)
    | some f =>
      let d := f.duplicate
      (.ok d, { act with resultFile := some d })

/-- PerformBuy (src/client/buy.go lines 49-63).  doBuy is the behaviour of
doPerformBuy on the activity state.  PerformBuy duplicates the work file
into the record, runs doBuy, records lastError on failure, and — by the
deferred function, on every path — clears the alive flag before
returning. -/
def performBuy (doBuy : BuyState → Except String FsFile × BuyState)
    (wfDup : FsFile) (st : BuyState) : Except String FsFile × BuyState :=
  let st1 := { st with workFile := some wfDup }
  let r := doBuy st1
  let st2 :=
    match r.1 with
    | .error e => { r.2 with lastError := some e }
    | .ok _ => r.2
  (r.1, { st2 with alive := false })

/-- finishBuy (src/client/buy.go lines 185-202), run by the background
finalizer goroutine: send AcceptResult (failure parameter
sendAcceptOutcome), wait for the transaction to leave the active state,
then clear the alive flag. -/
def finishBuy (sendAcceptOutcome : Option String) (st : BuyState) :
    Option String × BuyState :=
  match sendAcceptOutcome with
  | some e => (some ("Failed to send \x27accept result\x27 message: " ++ e), st)
  | none => (none, { st with alive := false })

/-- Actions of decryptResult on the temporary sink and the streams. -/
inductive DecEvent where
  | createTemp
  | openEncrypted
  | copyStream
  | closeTemp
  | assignResult
  | closeEncrypted
  | disposeTemp
deriving DecidableEq

/-- decryptResult (src/client/buy.go lines 608-639).  cipherRes, copyRes
and closeRes are the failures (if any) of aes.NewCipher, of the copy
through the stream reader (covering reads of the encrypted file), and of
the temp close.  tempF is the file the temp sink yields on success.  The
deferred encrypted.Close and temp.Dispose run in LIFO order on every path
that created them; the result file is assigned only after a successful
temp close. -/
def decryptResult (st : BuyState) (cipherRes copyRes closeRes : Option String)
    (tempF : FsFile) : Option String × BuyState × List DecEvent :=
  match cipherRes with
  | some e => (some e, st, [])
  | none =>
    match copyRes with
    | some e =>
      (some e, st,
       [.createTemp, .openEncrypted, .copyStream, .closeEncrypted, .disposeTemp])
    | none =>
      match closeRes with
      | some e =>
        (some e, st,
         [.createTemp, .openEncrypted, .copyStream, .closeTemp, .closeEncrypted,
          .disposeTemp])
      | none =>
        (none, { st with resultFile := some tempF },
         [.createTemp, .openEncrypted, .copyStream, .closeTemp, .assignResult,
          .closeEncrypted, .disposeTemp])

/-- A concrete work file with one chunk, used to instantiate theorems. -/
def wfOneChunk : WorkFile :=
  { key := [1, 2], chunkedFormat := true, chunks := [{ hash := 7, data := [9, 9] }] }

/-- A concrete activity state, used to instantiate theorems. -/
def actW : BuyState :=
  { workFile := none, resultFile := none, alive := true, lastError := none }

/-! ## Helper lemmas -/

/-- Appending strings concatenates their character data. -/
theorem strData_append (a b : String) : (a ++ b).data = a.data ++ b.data := by
  cases a
  cases b
  rfl

/-- String append is associative. -/
theorem strAppend_assoc (a b c : String) : a ++ b ++ c = a ++ (b ++ c) := by
  cases a
  cases b
  cases c
  show String.mk _ = String.mk _
  simp [List.append_assoc]

/-! ## Claim theorems -/

/-- C1: the workSecretHash of the EstablishBuyer message built by
doRemoteBuy is the SHA-256 digest of the concatenation of the work file
key with the buyer secret, and its workHash field is the work file key. -/
theorem C1_establish_secret_hash (digest : Bytes → Bytes) (txId identity : Nat)
    (wf : WorkFile) (secret : Bytes) :
    (establishBuyerMessage digest txId identity wf secret).workSecretHash
        = digest (wf.key ++ secret) ∧
      (establishBuyerMessage digest txId identity wf secret).workHash = wf.key := by
  constructor <;> simp [establishBuyerMessage, shaWrite]

/-- C4: in the Transmitting stage of doRemoteBuy, no failure proceeds,
a single failure is returned as that failure, and a double failure is
returned as the combination holding both messages (the phase message as a
prefix, the seller message as a suffix). -/
theorem C4_error_combination (s p : String) :
    transmitStage none none = .proceed ∧
      transmitStage (some s) none = .fail (wrapSellerErr s) ∧
      transmitStage none (some p) = .fail (wrapPhaseErr p) ∧
      transmitStage (some s) (some p)
          = .fail (combineTransmitErrors (wrapPhaseErr p) (wrapSellerErr s)) ∧
      (∃ u, combineTransmitErrors (wrapPhaseErr p) (wrapSellerErr s)
          = u ++ wrapSellerErr s) ∧
      (∃ v, combineTransmitErrors (wrapPhaseErr p) (wrapSellerErr s)
          = wrapPhaseErr p ++ v) := by
  refine ⟨rfl, rfl, rfl, rfl, ⟨wrapPhaseErr p ++ ". Additionally: ", rfl⟩,
    ⟨". Additionally: " ++ wrapSellerErr s, ?_⟩⟩
  simp [combineTransmitErrors, strAppend_assoc]

/-- C3: the OPTIONS probe is attempted exactly when the work file is
chunked, and whenever the probe fails on the wire (request error, non-200
status, or unparseable JSON) the stage yields all capabilities false with
legacy mode still true and the transfer takes the linear path. -/
theorem C3_probe_degrades (isChunked : Bool) (wire : OptionsWire) :
    (capabilityStage isChunked wire).probed = isChunked ∧
      (probeFailed wire = true →
        capabilityStage isChunked wire
            = { chunked := false, compressed := false, legacy := true,
                probed := isChunked } ∧
          pathOf (capabilityStage isChunked wire) = .linear) := by
  cases wire with
  | requestFailed =>
    cases isChunked <;> simp [capabilityStage, testSellerForCapabilities, pathOf]
  | response code body =>
    cases body with
    | none =>
      cases isChunked <;>
        by_cases h : code = 200 <;>
          simp [capabilityStage, testSellerForCapabilities, pathOf, probeFailed, h]
    | some caps =>
      cases isChunked <;>
        by_cases h : code = 200 <;>
          simp [capabilityStage, testSellerForCapabilities, pathOf, probeFailed, h]

/-- C3 witness: a failing probe at a chunked work file degrades to the
linear path with legacy mode true. -/
theorem C3_probe_degrades_witness :
    capabilityStage true .requestFailed
        = { chunked := false, compressed := false, legacy := true, probed := true } ∧
      pathOf (capabilityStage true .requestFailed) = .linear :=
  (C3_probe_degrades true .requestFailed).2 rfl

/-- C2: the chunked transmission path fails with the work-too-large error
exactly when the number of chunks exceeds the bound; at or below the bound
no such error is raised and the SyncInfo is built. -/
theorem C2_chunked_bound (bound : Nat) (wf : WorkFile) (legacy : Bool)
    (randPerm : List Nat) (sellerId : String) (hpFn : SyncInfo → Nat)
    (reqOutcome sendOutcome : Option String) :
    ((transmitWorkChunked bound wf legacy randPerm sellerId hpFn reqOutcome
          sendOutcome).failedTooLarge = true ↔ wf.numChunks > bound) ∧
      (wf.numChunks ≤ bound →
        (transmitWorkChunked bound wf legacy randPerm sellerId hpFn reqOutcome
            sendOutcome).failedTooLarge = false ∧
          (transmitWorkChunked bound wf legacy randPerm sellerId hpFn reqOutcome
              sendOutcome).builtSyncInfo.isSome = true) := by
  by_cases h : wf.numChunks > bound
  · constructor
    · simp [transmitWorkChunked, h, ChunkedOutcome.failedTooLarge, BuyError.isWorkTooLarge]
    · intro hle
      omega
  · constructor
    · rw [transmitWorkChunked]
      simp only [h, if_false]
      cases reqOutcome <;> cases sendOutcome <;>
        simp [ChunkedOutcome.failedTooLarge, BuyError.isWorkTooLarge, h]
    · intro _
      rw [transmitWorkChunked]
      simp only [h, if_false]
      cases reqOutcome <;> cases sendOutcome <;>
        simp [ChunkedOutcome.failedTooLarge, BuyError.isWorkTooLarge]

/-- C2 witness: a one-chunk work file under a bound of four is not
rejected and its SyncInfo is built; the iff direction also evaluates. -/
theorem C2_chunked_bound_witness :
    ((transmitWorkChunked 4 wfOneChunk true [] "s" (fun _ => 0) none
          none).failedTooLarge = true ↔ wfOneChunk.numChunks > 4) ∧
      (transmitWorkChunked 4 wfOneChunk true [] "s" (fun _ => 0) none
          none).failedTooLarge = false ∧
        (transmitWorkChunked 4 wfOneChunk true [] "s" (fun _ => 0) none
            none).builtSyncInfo.isSome = true :=
  ⟨(C2_chunked_bound 4 wfOneChunk true [] "s" (fun _ => 0) none none).1,
   (C2_chunked_bound 4 wfOneChunk true [] "s" (fun _ => 0) none none).2 (by decide)⟩

/-- C5: below the chunk bound, the SyncInfo built by transmitWorkChunked
carries the identity permutation of the 256 buckets in legacy mode and the
freshly drawn random permutation otherwise (in both cases a permutation of
the bucket range), and the assist-registry node is initialised under the
handprint of that SyncInfo exactly in the non-legacy case. -/
theorem C5_perm_and_registration (bound : Nat) (wf : WorkFile) (legacy : Bool)
    (randPerm : List Nat) (sellerId : String) (hpFn : SyncInfo → Nat)
    (reqOutcome sendOutcome : Option String)
    (hsize : wf.numChunks ≤ bound)
    (hperm : randPerm.Perm (List.range 256)) :
    ∃ si, (transmitWorkChunked bound wf legacy randPerm sellerId hpFn reqOutcome
        sendOutcome).builtSyncInfo = some si ∧
      (legacy = true → si.perm = List.range 256) ∧
      (legacy = false → si.perm = randPerm) ∧
      si.perm.Perm (List.range 256) ∧
      (AssistEvent.initNode sellerId (hpFn si)
          ∈ (transmitWorkChunked bound wf legacy randPerm sellerId hpFn reqOutcome
              sendOutcome).events ↔ legacy = false) := by
  have h : ¬ wf.numChunks > bound := by omega
  cases legacy with
  | true =>
    refine ⟨{ chunkHashes := wf.chunks.map Chunk.hash, perm := List.range 256 }, ?_⟩
    cases reqOutcome <;> cases sendOutcome <;>
      simp [transmitWorkChunked, h, SyncInfo.setChunksFromFile,
        SyncInfo.setTrivialPermutation, List.Perm.refl]
  | false =>
    refine ⟨{ chunkHashes := wf.chunks.map Chunk.hash, perm := randPerm }, ?_⟩
    cases reqOutcome <;> cases sendOutcome <;>
      simp [transmitWorkChunked, h, SyncInfo.setChunksFromFile,
        SyncInfo.setPermutation, hperm]

/-- C5 witness: a non-legacy transfer of the one-chunk work file with a
concrete permutation of the bucket range registers the assist node and
stores that permutation. -/
theorem C5_perm_and_registration_witness :
    wfOneChunk.numChunks ≤ 4 ∧
      (List.range 256).Perm (List.range 256) ∧
      ∃ si, (transmitWorkChunked 4 wfOneChunk false (List.range 256) "s"
          (fun _ => 0) none none).builtSyncInfo = some si ∧
        (false = true → si.perm = List.range 256) ∧
        (false = false → si.perm = List.range 256) ∧
        si.perm.Perm (List.range 256) ∧
        (AssistEvent.initNode "s" ((fun _ => 0) si)
            ∈ (transmitWorkChunked 4 wfOneChunk false (List.range 256) "s"
                (fun _ => 0) none none).events ↔ false = false) :=
  ⟨by decide, List.Perm.refl _,
   C5_perm_and_registration 4 wfOneChunk false (List.range 256) "s" (fun _ => 0)
     none none (by decide) (List.Perm.refl _)⟩

/-- C6 counterexample: in a fully successful chunk-body push the
transmission token is not returned before the chunk data is written — it
is returned only after the whole body has been transmitted, so the claim
that the token returns when the POST begins sending fails on the code. -/
theorem C6_counterexample :
    ¬ List.indexOf PushEvent.returnToken (chunkPushProducer none none none none "s")
        < List.indexOf PushEvent.writeChunkData
            (chunkPushProducer none none none none "s") := by
  decide

/-- C6 (amended): the producer of the chunk-body POST returns the
transmission token only once the whole body has been transmitted and the
pipe closed cleanly, immediately followed by clearing the assist node
interest flag; on any failure neither the token return nor the interest
update happens. -/
theorem C6_token_on_completion (c w m k : Option String) (sid : String) :
    chunkPushProducer none none none none sid
        = [.createFormFile, .writeChunkData, .disposeChunks, .closeMultipart,
           .closeCompressor, .closePipe, .returnToken, .setInterested sid false] ∧
      ((c.isSome || w.isSome || m.isSome || k.isSome) = true →
        PushEvent.returnToken ∉ chunkPushProducer c w m k sid ∧
          PushEvent.setInterested sid false ∉ chunkPushProducer c w m k sid) := by
  constructor
  · rfl
  · intro hfail
    cases c <;> cases w <;> cases m <;> cases k <;>
      simp [chunkPushProducer] at hfail ⊢

/-- C6 witness: when writing the form file fails, the token is not
returned and the interest flag is untouched. -/
theorem C6_token_on_completion_witness :
    ((some "e" : Option String).isSome || (none : Option String).isSome
          || (none : Option String).isSome || (none : Option String).isSome) = true ∧
      PushEvent.returnToken ∉ chunkPushProducer (some "e") none none none "s" ∧
        PushEvent.setInterested "s" false ∉ chunkPushProducer (some "e") none none none "s" :=
  ⟨rfl, (C6_token_on_completion (some "e") none none none "s").2 rfl⟩

/-- The OFB keystream of a block cipher with 16-byte blocks has 16 bytes
per block. -/
theorem ofbKeystream_length (E : Bytes → Bytes) (hE : ∀ b, (E b).length = 16) :
    ∀ (iv : Bytes) (n : Nat), (ofbKeystream E iv n).length = 16 * n := by
  intro iv n
  induction n generalizing iv with
  | zero => simp [ofbKeystream, ofbBlocks]
  | succ k ih =>
    have hstep : ofbKeystream E iv (k + 1) = E iv ++ ofbKeystream E (E iv) k := by
      simp [ofbKeystream, ofbBlocks]
    rw [hstep, List.length_append, hE, ih]
    ring

/-- XOR-ing twice with the same keystream gives back the data, provided
the keystream is long enough. -/
theorem xorBytes_cancel : ∀ p ks : Bytes, p.length ≤ ks.length →
    xorBytes (xorBytes p ks) ks = p := by
  intro p
  induction p with
  | nil => intro ks _; simp [xorBytes]
  | cons a t ih =>
    intro ks h
    cases ks with
    | nil => simp at h
    | cons b kt =>
      simp only [xorBytes, List.zipWith_cons_cons, List.cons.injEq] at ih ⊢
      refine ⟨Nat.xor_cancel_right b a, ih kt ?_⟩
      simpa using h

/-- C7: decryptResult's AES-OFB stream with zero IV inverts OFB encryption
under the same block function and zero IV: the round trip reproduces the
plaintext exactly, for every 16-byte block function and every plaintext. -/
theorem C7_ofb_roundtrip (E : Bytes → Bytes) (p : Bytes)
    (hE : ∀ b, (E b).length = 16) :
    decryptResultBytes E (ofbEncrypt E p) = p := by
  have hks : (ofbKeystream E zeroIV p.length).length = 16 * p.length :=
    ofbKeystream_length E hE zeroIV p.length
  have hlen : (xorBytes p (ofbKeystream E zeroIV p.length)).length = p.length := by
    simp only [xorBytes, List.length_zipWith, hks]
    omega
  simp only [decryptResultBytes, ofbEncrypt, hlen]
  exact xorBytes_cancel p _ (by rw [hks]; omega)

/-- C7 witness: the round trip evaluates on a concrete block function and
plaintext. -/
theorem C7_ofb_roundtrip_witness :
    (∀ b, (constBlock b).length = 16) ∧
      decryptResultBytes constBlock (ofbEncrypt constBlock [1, 2, 250]) = [1, 2, 250] :=
  ⟨fun _ => rfl, C7_ofb_roundtrip constBlock [1, 2, 250] (fun _ => rfl)⟩

/-- C8: doLocalBuy acts on the sell state at which the wait ended (sell
dead or result present): a present result is returned as an independent
duplicate — same content key, distinct handle — and stored as the
activity result file; a missing result means the sell died and yields the
sell-produced-no-result error, leaving the activity unchanged; an
interrupted wait is reported as the wait error. -/
theorem C8_local_buy (act : BuyState) (sellKey : String) (s : SellState)
    (hwait : localWaitPred s = false) :
    (∀ f, s.resultFile = some f →
        (doLocalBuy act sellKey (.ok s)).1 = .ok f.duplicate ∧
          f.duplicate.key = f.key ∧
          f.duplicate.handle ≠ f.handle ∧
          (doLocalBuy act sellKey (.ok s)).2.resultFile = some f.duplicate) ∧
      (s.resultFile = none →
        s.alive = false ∧
          (doLocalBuy act sellKey (.ok s)).1
              = .error ("Sell didn\x27t produce a result: #" ++ sellKey) ∧
          (doLocalBuy act sellKey (.ok s)).2 = act) ∧
      (∀ e, (doLocalBuy act sellKey (.error e)).1
          = .error ("Error waiting for local sell to complete: " ++ e)) := by
  refine ⟨?_, ?_, ?_⟩
  · intro f hf
    refine ⟨by simp [doLocalBuy, hf], rfl, ?_, by simp [doLocalBuy, hf]⟩
    simp [FsFile.duplicate]
  · intro hnone
    have halive : s.alive = false := by
      simpa [localWaitPred, hnone] using hwait
    exact ⟨halive, by simp [doLocalBuy, hnone], by simp [doLocalBuy, hnone]⟩
  · intro e
    simp [doLocalBuy]

/-- C8 witness: a dead sell with a result file yields the duplicate of
that file, stored in the activity. -/
theorem C8_local_buy_witness :
    localWaitPred ⟨false, some ⟨9, 0⟩⟩ = false ∧
      ((doLocalBuy actW "k" (.ok ⟨false, some ⟨9, 0⟩⟩)).1
            = .ok (FsFile.duplicate ⟨9, 0⟩) ∧
        (FsFile.duplicate ⟨9, 0⟩).key = (⟨9, 0⟩ : FsFile).key ∧
        (FsFile.duplicate ⟨9, 0⟩).handle ≠ (⟨9, 0⟩ : FsFile).handle ∧
        (doLocalBuy actW "k" (.ok ⟨false, some ⟨9, 0⟩⟩)).2.resultFile
            = some (FsFile.duplicate ⟨9, 0⟩)) :=
  ⟨by decide, (C8_local_buy actW "k" ⟨false, some ⟨9, 0⟩⟩ (by decide)).1 ⟨9, 0⟩ rfl⟩

/-- C9: PerformBuy clears the alive flag before returning, on the success
and on the failure path alike (the deferred function runs on both), and
the background finalizer finishBuy also clears it after the transaction
leaves the active state. -/
theorem C9_alive_cleared_on_return
    (doBuy : BuyState → Except String FsFile × BuyState)
    (wfDup : FsFile) (st : BuyState) :
    (performBuy doBuy wfDup st).2.alive = false ∧
      ∀ st2, (finishBuy none st2).2.alive = false :=
  ⟨rfl, fun _ => rfl⟩

/-- C10: decryptResult is atomic in the activity result file: if the
cipher construction, the decrypting copy (covering reads of the encrypted
file) or the temp close fails, an error is returned, the result file is
unchanged, no assignment happens, and a created temp is disposed; on full
success the result file becomes the decrypted temp file, assigned only
after the successful temp close. -/
theorem C10_decrypt_atomic (st : BuyState) (cipherRes copyRes closeRes : Option String)
    (tempF : FsFile) :
    ((cipherRes.isSome || copyRes.isSome || closeRes.isSome) = true →
        (decryptResult st cipherRes copyRes closeRes tempF).1.isSome = true ∧
          (decryptResult st cipherRes copyRes closeRes tempF).2.1.resultFile
              = st.resultFile ∧
          DecEvent.assignResult ∉ (decryptResult st cipherRes copyRes closeRes tempF).2.2 ∧
          (DecEvent.createTemp ∈ (decryptResult st cipherRes copyRes closeRes tempF).2.2 →
            DecEvent.disposeTemp
              ∈ (decryptResult st cipherRes copyRes closeRes tempF).2.2)) ∧
      (cipherRes = none → copyRes = none → closeRes = none →
        (decryptResult st cipherRes copyRes closeRes tempF).1 = none ∧
          (decryptResult st cipherRes copyRes closeRes tempF).2.1.resultFile
              = some tempF ∧
          List.indexOf DecEvent.closeTemp
              (decryptResult st cipherRes copyRes closeRes tempF).2.2
            < List.indexOf DecEvent.assignResult
                (decryptResult st cipherRes copyRes closeRes tempF).2.2 ∧
          DecEvent.disposeTemp
            ∈ (decryptResult st cipherRes copyRes closeRes tempF).2.2) := by
  constructor
  · intro hfail
    cases cipherRes <;> cases copyRes <;> cases closeRes <;>
      simp [decryptResult] at hfail ⊢
  · intro h1 h2 h3
    subst h1; subst h2; subst h3
    have hev : (decryptResult st none none none tempF).2.2
        = [DecEvent.createTemp, DecEvent.openEncrypted, DecEvent.copyStream,
           DecEvent.closeTemp, DecEvent.assignResult, DecEvent.closeEncrypted,
           DecEvent.disposeTemp] := rfl
    refine ⟨rfl, rfl, ?_, ?_⟩
    · rw [hev]
      decide
    · rw [hev]
      decide

/-- C10 witness: a failing cipher construction leaves the result file
untouched. -/
theorem C10_decrypt_atomic_witness :
    ((some "boom" : Option String).isSome || (none : Option String).isSome
          || (none : Option String).isSome) = true ∧
      ((decryptResult actW (some "boom") none none ⟨3, 0⟩).1.isSome = true ∧
        (decryptResult actW (some "boom") none none ⟨3, 0⟩).2.1.resultFile
            = actW.resultFile ∧
        DecEvent.assignResult ∉ (decryptResult actW (some "boom") none none ⟨3, 0⟩).2.2 ∧
        (DecEvent.createTemp ∈ (decryptResult actW (some "boom") none none ⟨3, 0⟩).2.2 →
          DecEvent.disposeTemp
            ∈ (decryptResult actW (some "boom") none none ⟨3, 0⟩).2.2)) :=
  ⟨rfl, (C10_decrypt_atomic actW (some "boom") none none ⟨3, 0⟩).1 rfl⟩
